import Mathlib

/-
Verification of the session/token lifecycle of the Pofara Trustees web app.

The development shallowly embeds the three source units the lifecycle lives in:

* `src/unnamed/part_004` (the axios api module): a request interceptor that
  attaches `Authorization: Bearer <access_token>` from client storage, and a
  response interceptor that, on a 401 whose request config has no `_retry`
  flag, sets the flag, exchanges the stored refresh token for a new access
  token through a bare `axios.post`, stores the new access token, and resends
  the original request through the same pipeline; on refresh failure it
  removes both tokens and redirects to `/login`.
* `src/frontend/src/components/layout/Layout.tsx` (AuthProvider): `initAuth`,
  `login`, `refreshUser`, `logout`.
* `src/frontend/src/pages/auth/RegisterPage.tsx`: `handleSubmit` with its
  local validation short-circuits.

Network collaborators (the Django backend) are modelled as explicit function
parameters: `serve` gives the status the Resource API returns for a concrete
request, and `refreshSrv` gives the Identity Service reply to a refresh POST.
Client storage (`localStorage`) and `window.location` are explicit state.
-/

/-- Role of a user, from the `User` interface in Layout.tsx (line 409). -/
inductive Role where
  | user
  | inspector
  | admin
deriving Repr, DecidableEq

/-- Authenticated-user snapshot, from the `User` interface in Layout.tsx
(lines 403-414). -/
structure User where
  id : Nat
  email : String
  first_name : String
  last_name : String
  phone_number : Option String
  role : Role
  status : String
  email_verified : Bool
  phone_verified : Bool
  is_verified : Bool
deriving Repr, DecidableEq

/-- An outgoing HTTP request config as the interceptors see it: its URL, its
`headers.Authorization` value, and the `_retry` marker the response
interceptor stamps on a config before retrying (absent on a fresh request,
modelled as `false`). -/
structure Request where
  url : String
  authorization : Option String
  retry : Bool
deriving Repr, DecidableEq

/-- Client-side persistent and browser state used by `part_004`:
`localStorage` keys `access_token` and `refresh_token` (`getItem` yields
`none` when the key is absent) and `window.location.href`. -/
structure ClientState where
  access_token : Option String
  refresh_token : Option String
  location : String
deriving Repr, DecidableEq

/-- Error value carried by a rejected promise out of the api pipeline.

* `resource url status`: an axios error of a request sent through `api`
  (its `config.url` is the resource URL, `response.status` the code);
* `refreshHttp status`: an axios error of the bare refresh POST at
  part_004 lines 41-43 (its `config.url` is the refresh endpoint);
* `noRefreshToken`: the `new Error('No refresh token')` thrown at line 38. -/
inductive ApiError where
  | resource (url : String) (status : Nat)
  | refreshHttp (status : Nat)
  | noRefreshToken
deriving Repr, DecidableEq

/-- Settled result of an `api(...)` promise: fulfilled with a response status,
or rejected with an error. -/
inductive Outcome where
  | fulfilled (status : Nat)
  | rejected (e : ApiError)
deriving Repr, DecidableEq

/-- URL of the refresh endpoint used by the bare POST (part_004 line 41). -/
def refreshUrl : String := "http://127.0.0.1:8000/api/v1/auth/token/refresh/"

/-- Relative URL of the login token endpoint (part_004 line 66). -/
def loginUrl : String := "auth/token/"

/-- Axios default `validateStatus`: a response with a 2xx status fulfills the
promise, every other status rejects it into the response interceptor. -/
def isSuccess (status : Nat) : Bool := 200 ≤ status && status < 300

/-- Request interceptor (part_004 lines 13-24): read `access_token` from
storage and, when it is truthy (present and nonempty), set
`config.headers.Authorization` to the Bearer value. -/
def attachToken (st : ClientState) (req : Request) : Request :=
  match st.access_token with
  | some t => if t.isEmpty then req else { req with authorization := some ("Bearer " ++ t) }
  | none => req

/-- The HTTP request issued by the bare `axios.post` refresh call (part_004
lines 41-43): the default axios instance, not `api`, so neither interceptor
runs on it; no Authorization header is set and the refresh token travels in
the body only. -/
def refreshHttpRequest (rt : String) : Request :=
  { url := refreshUrl, authorization := none, retry := false }

/-- Storage and location after the interceptor's refresh-failure branch
(part_004 lines 51-56): both tokens removed, browser sent to `/login`. -/
def clearedToLogin : ClientState :=
  { access_token := none, refresh_token := none, location := "/login" }

/-- The original request config as it is resent after a successful refresh
(part_004 lines 33 and 49): the `_retry` flag set, the Authorization header
overwritten with the new access token. -/
def retriedWith (req : Request) (a : String) : Request :=
  { req with retry := true, authorization := some ("Bearer " ++ a) }

/-- Observable trace of one `api(...)` call: final client state, the settled
outcome returned to the original caller, every request delivered to the
Resource API (after the request interceptor), and every refresh POST issued. -/
structure SendResult where
  state : ClientState
  outcome : Outcome
  resourceSends : List Request
  refreshSends : List Request
deriving Repr, DecidableEq

/-- The `api` pipeline of part_004 for one original request: request
interceptor (attach token), the server's status, then the response
interceptor. A 2xx fulfills. Otherwise, when the status is 401 and the
config carries no `_retry` flag (lines 32-33), the flag is set and the
stored refresh token is exchanged via the bare POST; `refreshSrv rt` is the
Identity Service reply (`.ok access` on 200, `.error status` otherwise). On
success the new access token is stored, re-attached, and the original config
is resent through `api` itself (line 50), which re-enters this pipeline with
`_retry = true`. On a missing (null or empty, JS falsy) refresh token or a
failed refresh POST, both tokens are removed, the browser is redirected to
`/login`, and the error is rejected to the caller (lines 51-56). Every other
failure status is rejected unchanged (line 60). -/
def apiSend (refreshSrv : String → Except Nat String) (serve : Request → Nat)
    (st : ClientState) (req : Request) : SendResult :=
  let sent := attachToken st req
  let status := serve sent
  if isSuccess status then
    { state := st, outcome := .fulfilled status,
      resourceSends := [sent], refreshSends := [] }
  else if h : status == 401 && !sent.retry then
    match st.refresh_token with
    | none =>
      { state := clearedToLogin, outcome := .rejected .noRefreshToken,
        resourceSends := [sent], refreshSends := [] }
    | some rt =>
      if rt.isEmpty then
        { state := clearedToLogin, outcome := .rejected .noRefreshToken,
          resourceSends := [sent], refreshSends := [] }
      else
        match refreshSrv rt with
        | .error s =>
          { state := clearedToLogin, outcome := .rejected (.refreshHttp s),
            resourceSends := [sent], refreshSends := [refreshHttpRequest rt] }
        | .ok access =>
          let st2 : ClientState := { st with access_token := some access }
          let orig2 : Request :=
            { sent with retry := true, authorization := some ("Bearer " ++ access) }
          let r := apiSend refreshSrv serve st2 orig2
          { state := r.state, outcome := r.outcome,
            resourceSends := sent :: r.resourceSends,
            refreshSends := refreshHttpRequest rt :: r.refreshSends }
  else
    { state := st, outcome := .rejected (.resource sent.url status),
      resourceSends := [sent], refreshSends := [] }
termination_by (if req.retry then 1 else 2)
decreasing_by
  have hat : (attachToken st req).retry = req.retry := by
    unfold attachToken
    cases st.access_token with
    | none => rfl
    | some t => by_cases ht : t.isEmpty <;> simp [ht]
  simp only [Bool.and_eq_true, Bool.not_eq_true', beq_iff_eq] at h
  rw [hat] at h
  simp [h.2]

/-- Classification of a surfaced error as InvalidCredentials in the sense of
the error taxonomy of spec section 7: a 401 of the login token endpoint
(a wrong email/password pair). Identified by the URL the axios error carries
in its config. -/
def ApiError.isInvalidCredentials : ApiError → Bool
  | .resource url status => url == loginUrl && status == 401
  | _ => false

/-- Classification of a surfaced error as SessionExpired in the sense of the
error taxonomy of spec section 7: an error produced by a terminal refresh
failure, i.e. a failed refresh POST or a missing refresh token. -/
def ApiError.isSessionExpired : ApiError → Bool
  | .refreshHttp _ => true
  | .noRefreshToken => true
  | .resource _ _ => false

/-- Synchronous prefix of the 401 rejection handler (part_004 lines 31-43), up
to its first await point: it runs when the response status is 401 and the
per-request `_retry` flag is unset, and issues the refresh POST whenever the
stored refresh token is truthy. The guard consults only the per-request flag
and storage; the module keeps no record of an in-flight refresh. Under the
run-to-completion semantics of the JS event loop, every handler entered
before any refresh response has arrived executes this prefix against the same
storage, independently of its siblings. -/
def issuesRefresh (st : ClientState) (status : Nat) (req : Request) : Bool :=
  status == 401 && !req.retry && !(st.refresh_token.getD "").isEmpty

/-- Number of refresh POSTs issued for a group of concurrent requests that
each receive the given status before any refresh has completed: each request
handler decides independently via `issuesRefresh`. -/
def groupRefreshCalls (st : ClientState) (status : Nat) (reqs : List Request) : Nat :=
  (reqs.filter (fun q => issuesRefresh st status q)).length

/-- Payload of a successful login/register response
(Layout.tsx line 461: `const { access, refresh, user } = response.data`). -/
structure LoginPayload where
  access : String
  refresh : String
  user : User
deriving Repr, DecidableEq

/-- The structured fields of a failure response body that the login error
extraction reads (Layout.tsx lines 473-475). -/
structure ErrData where
  non_field_errors : List String
  detail : Option String
deriving Repr, DecidableEq

/-- JS `a || b` on a possibly-undefined string `a`: `b` when `a` is undefined
or falsy (the empty string), else `a`. -/
def jsOr (a : Option String) (b : String) : String :=
  match a with
  | some s => if s.isEmpty then b else s
  | none => b

/-- Error message extraction of Layout.tsx lines 473-475:
`error.response?.data?.non_field_errors?.[0] || error.response?.data?.detail
|| 'Login failed. Please check your credentials.'`. The argument is the
response data when the failure carried one (`none` for a transport error). -/
def loginErrorMessage (e : Option ErrData) : String :=
  jsOr (e.bind fun d => d.non_field_errors.head?)
    (jsOr (e.bind ErrData.detail) "Login failed. Please check your credentials.")

/-- State owned by the AuthProvider (Layout.tsx lines 432-434) together with
the client storage and location it manipulates: `user` is the in-memory
SessionUser (`useState<User | null>(null)`), `isLoading` the bootstrap flag
(`useState(true)`). -/
structure AuthState where
  storage : ClientState
  user : Option User
  isLoading : Bool
deriving Repr, DecidableEq

/-- Structured result login returns to its caller (Layout.tsx 470, 476):
`{ success: true }` or `{ success: false, error }`; the function never
rethrows. -/
inductive LoginResult where
  | success
  | failure (error : String)
deriving Repr, DecidableEq

/-- login (Layout.tsx lines 456-480), parameterized by the settled result of
`authAPI.login(credentials)`: on fulfillment, store both tokens and set the
user; on rejection, reach the catch block, which only builds the error
message — no token write and no user write happens before the await
succeeds. `finally` clears `isLoading` on both paths. -/
def login (reply : Except (Option ErrData) LoginPayload) (st : AuthState) :
    AuthState × LoginResult :=
  match reply with
  | .ok p =>
      ({ storage := { st.storage with
            access_token := some p.access, refresh_token := some p.refresh },
         user := some p.user, isLoading := false }, .success)
  | .error e => ({ st with isLoading := false }, .failure (loginErrorMessage e))

/-- Externally visible effects of logout, in program order
(Layout.tsx lines 541-552). -/
inductive Effect where
  | removeItem (key : String)
  | setUserNull
  | postLogout
  | setLocation (url : String)
deriving Repr, DecidableEq

/-- logout (Layout.tsx lines 541-552): synchronously remove both tokens and
null the user, then fire the best-effort `authAPI.logout()` POST, then
navigate to `/`. Returns the resulting state and the ordered effect list; the
notification is issued only after every state-clearing effect. -/
def logout (st : AuthState) : AuthState × List Effect :=
  ({ storage := { access_token := none, refresh_token := none, location := "/" },
     user := none, isLoading := st.isLoading },
   [.removeItem "access_token", .removeItem "refresh_token", .setUserNull,
    .postLogout, .setLocation "/"])

/-- The continuation attached to the logout notification (Layout.tsx line
548): `.catch(console.error)` consumes any rejection, so the promise settles
successfully whatever the Identity Service answered, and nothing is returned
or rethrown to the caller of logout. -/
def logoutNotifyHandler (reply : Except Nat Unit) : Except Nat Unit := .ok ()

/-- refreshUser (Layout.tsx lines 530-539), parameterized by the settled
result of `authAPI.getProfile()` (an outcome of the api pipeline): on
fulfillment `setUser(response.data)`; on rejection, call logout and rethrow
the error. This is also the continuation that runs when an in-flight profile
response is delivered: it applies `setUser` to whatever state is current at
delivery time, with no staleness or cancellation guard. -/
def refreshUser (profileReply : Except ApiError User) (st : AuthState) :
    AuthState × Except ApiError Unit :=
  match profileReply with
  | .ok u => ({ st with user := some u }, .ok ())
  | .error e => ((logout st).1, .error e)

/-- initAuth (Layout.tsx lines 439-454), the per-process bootstrap: when a
truthy access token is stored, await `refreshUser()` (whose settled profile
result is the parameter) and on failure call logout (a second time — the
catch inside refreshUser already ran it); finally clear `isLoading`. The
returned Bool records whether the profile endpoint was called. -/
def initAuth (profileReply : Except ApiError User) (st : AuthState) :
    AuthState × Bool :=
  match st.storage.access_token with
  | none => ({ st with isLoading := false }, false)
  | some t =>
      if t.isEmpty then ({ st with isLoading := false }, false)
      else
        match refreshUser profileReply st with
        | (st1, .ok _) => ({ st1 with isLoading := false }, true)
        | (st1, .error _) => ({ (logout st1).1 with isLoading := false }, true)

/-- AuthProvider state of a freshly loaded document over the given storage
(Layout.tsx lines 432-434): a full `window.location.href` navigation unloads
the JS heap, and the next document starts with `useState(null)` /
`useState(true)` before its own bootstrap runs. -/
def freshAuthState (storage : ClientState) : AuthState :=
  { storage := storage, user := none, isLoading := true }

/-- A sample authenticated user, used to instantiate witnesses. -/
def amina : User :=
  { id := 1, email := "amina@example.com", first_name := "Amina",
    last_name := "Diallo", phone_number := none, role := .user,
    status := "active", email_verified := true, phone_verified := true,
    is_verified := true }

/-- A sample successful login/register payload, used to instantiate
witnesses. -/
def aminaPayload : LoginPayload :=
  { access := "la", refresh := "lr", user := amina }

/-- An anonymous AuthProvider state over empty storage, used to instantiate
witnesses. -/
def anonState : AuthState :=
  { storage := { access_token := none, refresh_token := none, location := "/" },
    user := none, isLoading := false }

/-- An authenticated AuthProvider state (tokens a0/r0 stored, amina logged
in), used to instantiate counterexamples and witnesses. -/
def aminaSession : AuthState :=
  { storage := { access_token := some "a0", refresh_token := some "r0", location := "/dashboard" },
    user := some amina, isLoading := false }

/-- The registration form state (RegisterPage.tsx lines 7-14). -/
structure RegisterForm where
  email : String
  password : String
  confirmPassword : String
  first_name : String
  last_name : String
  phone_number : String
deriving Repr, DecidableEq

/-- The payload passed to register() once validation passes
(RegisterPage.tsx line 59: formData minus confirmPassword). -/
structure RegisterData where
  email : String
  password : String
  first_name : String
  last_name : String
  phone_number : String
deriving Repr, DecidableEq

/-- How handleSubmit proceeds: a local validation failure (`setError` then
return, before any network activity), or the call into register() with the
stripped payload. -/
inductive SubmitStep where
  | localError (msg : String)
  | callRegister (data : RegisterData)
deriving Repr, DecidableEq

/-- handleSubmit (RegisterPage.tsx lines 40-70): password confirmation is
checked first, then the length-8 minimum; either violation returns before
`register(registrationData)` is reached. -/
def handleSubmit (f : RegisterForm) : SubmitStep :=
  if f.password ≠ f.confirmPassword then .localError "Passwords do not match"
  else if f.password.length < 8 then
    .localError "Password must be at least 8 characters long"
  else .callRegister
    { email := f.email, password := f.password, first_name := f.first_name,
      last_name := f.last_name, phone_number := f.phone_number }

/-- Number of network requests a submit step issues: the localError paths
return before register() — and hence before `authAPI.register` — is invoked. -/
def SubmitStep.networkCalls : SubmitStep → Nat
  | .localError _ => 0
  | .callRegister _ => 1

/-- Maximum number of token writes a submit step can cause: only the
callRegister path reaches Layout.register, where the two `setItem` calls
live (Layout.tsx lines 497-498). -/
def SubmitStep.tokenWrites : SubmitStep → Nat
  | .localError _ => 0
  | .callRegister _ => 2

lemma attachToken_retry (st : ClientState) (req : Request) :
    (attachToken st req).retry = req.retry := by
  unfold attachToken
  cases st.access_token with
  | none => rfl
  | some t =>
    by_cases h : t.isEmpty <;> simp [h]

section StepLemmas

variable (refreshSrv : String → Except Nat String) (serve : Request → Nat)
variable (st : ClientState) (req : Request)

lemma apiSend_success (hs : isSuccess (serve (attachToken st req)) = true) :
    apiSend refreshSrv serve st req =
      { state := st, outcome := .fulfilled (serve (attachToken st req)),
        resourceSends := [attachToken st req], refreshSends := [] } := by
  rw [apiSend]
  simp [hs]

lemma apiSend_401_refresh_ok (rt a : String)
    (hs : serve (attachToken st req) = 401)
    (hr : req.retry = false)
    (hrt : st.refresh_token = some rt)
    (hne : rt.isEmpty = false)
    (hok : refreshSrv rt = .ok a) :
    apiSend refreshSrv serve st req =
      let sent := attachToken st req
      let r := apiSend refreshSrv serve { st with access_token := some a }
        (retriedWith sent a)
      { state := r.state, outcome := r.outcome,
        resourceSends := sent :: r.resourceSends,
        refreshSends := refreshHttpRequest rt :: r.refreshSends } := by
  rw [apiSend]
  simp [hs, isSuccess, attachToken_retry, hr, hrt, hne, hok, retriedWith]

lemma apiSend_401_refresh_fail (rt : String) (s : Nat)
    (hs : serve (attachToken st req) = 401)
    (hr : req.retry = false)
    (hrt : st.refresh_token = some rt)
    (hne : rt.isEmpty = false)
    (hfail : refreshSrv rt = .error s) :
    apiSend refreshSrv serve st req =
      { state := clearedToLogin, outcome := .rejected (.refreshHttp s),
        resourceSends := [attachToken st req],
        refreshSends := [refreshHttpRequest rt] } := by
  rw [apiSend]
  simp [hs, isSuccess, attachToken_retry, hr, hrt, hne, hfail]

lemma apiSend_401_token_missing
    (hs : serve (attachToken st req) = 401)
    (hr : req.retry = false)
    (hrt : (st.refresh_token.getD "").isEmpty = true) :
    apiSend refreshSrv serve st req =
      { state := clearedToLogin, outcome := .rejected .noRefreshToken,
        resourceSends := [attachToken st req], refreshSends := [] } := by
  rw [apiSend]
  cases h : st.refresh_token with
  | none => simp [hs, isSuccess, attachToken_retry, hr, h]
  | some rt =>
    rw [h] at hrt
    simp only [Option.getD] at hrt
    simp [hs, isSuccess, attachToken_retry, hr, h, hrt]

lemma apiSend_reject
    (hs : isSuccess (serve (attachToken st req)) = false)
    (h2 : (serve (attachToken st req) == 401 && !req.retry) = false) :
    apiSend refreshSrv serve st req =
      { state := st,
        outcome := .rejected
          (.resource (attachToken st req).url (serve (attachToken st req))),
        resourceSends := [attachToken st req], refreshSends := [] } := by
  rw [apiSend]
  simp only [hs, Bool.false_eq_true, if_false, attachToken_retry, h2, dite_false]

end StepLemmas

lemma attachToken_already (st : ClientState) (req : Request) (a : String)
    (hst : st.access_token = some a)
    (hauth : req.authorization = some ("Bearer " ++ a)) :
    attachToken st req = req := by
  unfold attachToken
  rw [hst]
  by_cases h : a.isEmpty
  · simp [h]
  · simp only [h, Bool.false_eq_true, if_false]
    cases req
    simp_all

lemma apiSend_of_retry (refreshSrv : String → Except Nat String)
    (serve : Request → Nat) (st : ClientState) (req : Request)
    (hretry : req.retry = true) :
    apiSend refreshSrv serve st req =
      if isSuccess (serve (attachToken st req)) then
        { state := st, outcome := .fulfilled (serve (attachToken st req)),
          resourceSends := [attachToken st req], refreshSends := [] }
      else
        { state := st,
          outcome := .rejected
            (.resource (attachToken st req).url (serve (attachToken st req))),
          resourceSends := [attachToken st req], refreshSends := [] } := by
  rw [apiSend]
  simp only [attachToken_retry, hretry, Bool.not_true, Bool.and_false,
    Bool.false_eq_true, dite_false]

lemma apiSend_retry_refreshSends (refreshSrv : String → Except Nat String)
    (serve : Request → Nat) (st : ClientState) (req : Request)
    (hretry : req.retry = true) :
    (apiSend refreshSrv serve st req).refreshSends = [] := by
  rw [apiSend_of_retry refreshSrv serve st req hretry]
  split <;> rfl

lemma apiSend_refreshSends_spec (refreshSrv : String → Except Nat String)
    (serve : Request → Nat) (st : ClientState) (req : Request) :
    (apiSend refreshSrv serve st req).refreshSends = [] ∨
    ∃ rt, st.refresh_token = some rt ∧
      (apiSend refreshSrv serve st req).refreshSends = [refreshHttpRequest rt] := by
  by_cases hs : isSuccess (serve (attachToken st req)) = true
  · left
    rw [apiSend_success refreshSrv serve st req hs]
  · by_cases hb : (serve (attachToken st req) == 401 && !req.retry) = true
    · have hr : req.retry = false := by
        rcases Bool.and_eq_true_iff.mp hb with ⟨h1, h2⟩
        simpa using h2
      have h401 : serve (attachToken st req) = 401 := by
        rcases Bool.and_eq_true_iff.mp hb with ⟨h1, h2⟩
        exact beq_iff_eq.mp h1
      cases hrt : st.refresh_token with
      | none =>
        left
        rw [apiSend_401_token_missing refreshSrv serve st req h401 hr (by rw [hrt]; rfl)]
      | some rt =>
        by_cases hne : rt.isEmpty = true
        · left
          rw [apiSend_401_token_missing refreshSrv serve st req h401 hr (by simp [hrt, hne])]
        · have hne' : rt.isEmpty = false := by simpa using hne
          cases hres : refreshSrv rt with
          | error s =>
            right
            exact ⟨rt, rfl, by
              rw [apiSend_401_refresh_fail refreshSrv serve st req rt s h401 hr hrt hne' hres]⟩
          | ok a =>
            right
            refine ⟨rt, rfl, ?_⟩
            rw [apiSend_401_refresh_ok refreshSrv serve st req rt a h401 hr hrt hne' hres]
            simp only
            rw [apiSend_retry_refreshSends refreshSrv serve _ _ rfl]
    · left
      rw [apiSend_reject refreshSrv serve st req (by simpa using hs) (by simpa using hb)]

/-- C1: for every outgoing Resource API request that receives a 401, the
refresh-and-retry cycle is performed at most once: the per-request retry flag
is set before refreshing (the resent config carries it), exactly one refresh
POST is issued, the original request is resent exactly once with the new
access token attached, and its result is returned to the original caller —
in particular a second 401 on the resent request is propagated as a rejection
with no further refresh (the refresh count stays 1). -/
theorem c1_refresh_retry_at_most_once
    (refreshSrv : String → Except Nat String) (serve : Request → Nat)
    (st : ClientState) (req : Request) (rt a : String)
    (hr : req.retry = false)
    (hs : serve (attachToken st req) = 401)
    (hrt : st.refresh_token = some rt)
    (hne : rt.isEmpty = false)
    (hok : refreshSrv rt = .ok a) :
    ∃ resent : Request,
      resent = retriedWith (attachToken st req) a ∧
      (apiSend refreshSrv serve st req).resourceSends =
        [attachToken st req, resent] ∧
      resent.retry = true ∧
      resent.authorization = some ("Bearer " ++ a) ∧
      (apiSend refreshSrv serve st req).refreshSends.length = 1 ∧
      (isSuccess (serve resent) = true →
        (apiSend refreshSrv serve st req).outcome = .fulfilled (serve resent)) ∧
      (isSuccess (serve resent) = false →
        (apiSend refreshSrv serve st req).outcome =
          .rejected (.resource resent.url (serve resent))) := by
  rw [apiSend_401_refresh_ok refreshSrv serve st req rt a hs hr hrt hne hok]
  simp only
  have hat : attachToken { st with access_token := some a }
      (retriedWith (attachToken st req) a) = retriedWith (attachToken st req) a :=
    attachToken_already _ _ a rfl rfl
  rw [apiSend_of_retry refreshSrv serve _ _ rfl, hat]
  refine ⟨retriedWith (attachToken st req) a, rfl, ?_, rfl, rfl, ?_, ?_, ?_⟩ <;>
    by_cases hss :
      isSuccess (serve (retriedWith (attachToken st req) a)) = true <;>
    simp [hss]

/-- C1 witness: a concrete run (stored tokens a0/r0, server answering 401 to
every resource request, refresh yielding a1) performs exactly one refresh. -/
theorem c1_refresh_retry_witness :
    (apiSend (fun _ => Except.ok "a1") (fun _ => 401)
      { access_token := some "a0", refresh_token := some "r0",
        location := "/dashboard" }
      { url := "projects/", authorization := none,
        retry := false }).refreshSends.length = 1 := by
  obtain ⟨resent, h0, h1, h2, h3, h4, h5, h6⟩ :=
    c1_refresh_retry_at_most_once (fun _ => Except.ok "a1") (fun _ => 401)
      { access_token := some "a0", refresh_token := some "r0",
        location := "/dashboard" }
      { url := "projects/", authorization := none, retry := false }
      "r0" "a1" rfl rfl rfl rfl rfl
  exact h4

/-- C2 counterexample: two concurrent Resource API requests that each receive
a 401 before any refresh has completed issue two refresh calls, not exactly
one — each rejection handler is guarded only by its own per-request retry
flag and the (still present) stored refresh token; the module records no
shared in-flight refresh for siblings to await. -/
theorem c2_no_single_flight_counterexample :
    groupRefreshCalls
      { access_token := some "a0", refresh_token := some "r0",
        location := "/dashboard" } 401
      [{ url := "projects/", authorization := none, retry := false },
       { url := "inspectors/", authorization := none, retry := false }] ≠ 1 := by
  decide

/-- C2 amended: for a group of N concurrent Resource API requests that each
receive a 401 before any refresh has completed, each request independently
issues its own refresh call — N refresh POSTs in total, one per request —
since the only guards are the per-request retry flag and the stored refresh
token; there is no shared in-flight refresh operation for the group. -/
theorem c2_refresh_per_request
    (st : ClientState) (rt : String) (reqs : List Request)
    (hrt : st.refresh_token = some rt) (hne : rt.isEmpty = false)
    (hfresh : ∀ q ∈ reqs, q.retry = false) :
    groupRefreshCalls st 401 reqs = reqs.length := by
  unfold groupRefreshCalls
  have hall : reqs.filter (fun q => issuesRefresh st 401 q) = reqs := by
    apply List.filter_eq_self.mpr
    intro q hq
    simp [issuesRefresh, hrt, hne, hfresh q hq]
  rw [hall]

/-- C2 amended witness: with tokens a0/r0 stored, two fresh concurrent
requests receiving 401 issue two refresh calls. -/
theorem c2_refresh_per_request_witness :
    groupRefreshCalls
      { access_token := some "a0", refresh_token := some "r0",
        location := "/dashboard" } 401
      [{ url := "projects/", authorization := none, retry := false },
       { url := "inspectors/", authorization := none, retry := false }] = 2 := by
  have h := c2_refresh_per_request
    { access_token := some "a0", refresh_token := some "r0",
      location := "/dashboard" }
    "r0"
    [{ url := "projects/", authorization := none, retry := false },
     { url := "inspectors/", authorization := none, retry := false }]
    rfl rfl (by decide)
  simpa using h

/-- C3: for every refresh attempt that fails — the Identity Service rejects
the refresh POST (expired/revoked token) or the refresh token is missing from
storage — both stored tokens are cleared and the browser is driven to the
/login entry, whose fresh document starts with a null SessionUser and whose
bootstrap over the cleared storage keeps it null (anonymous state); the error
rejected to the caller is a SessionExpired-class error of the refresh path
and never an InvalidCredentials-class 401 of the login endpoint; the failure
is terminal: the original request is sent once and not retried, and at most
one refresh is attempted. -/
theorem c3_refresh_failure_terminal
    (refreshSrv : String → Except Nat String) (serve : Request → Nat)
    (st : ClientState) (req : Request) (profileReply : Except ApiError User)
    (hr : req.retry = false)
    (hs : serve (attachToken st req) = 401)
    (hfail : ∀ rt, st.refresh_token = some rt → rt.isEmpty = false →
      ∃ s, refreshSrv rt = .error s) :
    (apiSend refreshSrv serve st req).state.access_token = none ∧
    (apiSend refreshSrv serve st req).state.refresh_token = none ∧
    (apiSend refreshSrv serve st req).state.location = "/login" ∧
    (initAuth profileReply
      (freshAuthState (apiSend refreshSrv serve st req).state)).1.user = none ∧
    (∃ e, (apiSend refreshSrv serve st req).outcome = .rejected e ∧
      e.isSessionExpired = true ∧ e.isInvalidCredentials = false) ∧
    (apiSend refreshSrv serve st req).resourceSends.length = 1 ∧
    (apiSend refreshSrv serve st req).refreshSends.length ≤ 1 := by
  have key : ∃ e l, apiSend refreshSrv serve st req =
      { state := clearedToLogin, outcome := .rejected e,
        resourceSends := [attachToken st req], refreshSends := l } ∧
      e.isSessionExpired = true ∧ e.isInvalidCredentials = false ∧
      l.length ≤ 1 := by
    cases hrt : st.refresh_token with
    | none =>
      exact ⟨.noRefreshToken, [],
        apiSend_401_token_missing refreshSrv serve st req hs hr
          (by rw [hrt]; rfl), rfl, rfl, by decide⟩
    | some rt =>
      by_cases hne : rt.isEmpty = true
      · exact ⟨.noRefreshToken, [],
          apiSend_401_token_missing refreshSrv serve st req hs hr
            (by rw [hrt]; simpa using hne), rfl, rfl, by decide⟩
      · have hne' : rt.isEmpty = false := by simpa using hne
        obtain ⟨s, hsrv⟩ := hfail rt hrt hne'
        exact ⟨.refreshHttp s, [refreshHttpRequest rt],
          apiSend_401_refresh_fail refreshSrv serve st req rt s hs hr hrt
            hne' hsrv, rfl, rfl, by simp⟩
  obtain ⟨e, l, heq, hse, hic, hl⟩ := key
  rw [heq]
  refine ⟨rfl, rfl, rfl, ?_, ⟨e, rfl, hse, hic⟩, rfl, hl⟩
  simp [initAuth, freshAuthState, clearedToLogin]

/-- C3 witness: with tokens a0/r0 stored and the Identity Service rejecting
the refresh with 401, the stored refresh token ends cleared. -/
theorem c3_refresh_failure_witness :
    (apiSend (fun _ => Except.error 401) (fun _ => 401)
      { access_token := some "a0", refresh_token := some "r0",
        location := "/dashboard" }
      { url := "projects/", authorization := none,
        retry := false }).state.refresh_token = none :=
  (c3_refresh_failure_terminal (fun _ => Except.error 401) (fun _ => 401)
    { access_token := some "a0", refresh_token := some "r0",
      location := "/dashboard" }
    { url := "projects/", authorization := none, retry := false }
    (Except.error ApiError.noRefreshToken) rfl rfl
    (fun rt h1 h2 => ⟨401, rfl⟩)).2.1

/-- C4 counterexample: a successful refresh does not replace both tokens
together. With access a0 and refresh r0 stored, a 401 followed by a
successful refresh to a1 performs one refresh POST and leaves storage holding
the new access token a1 next to the untouched, stale refresh token r0 — one
token updated, the other not replaced. -/
theorem c4_partial_replace_counterexample :
    (apiSend (fun _ => Except.ok "a1") (fun q => if q.retry then 200 else 401)
      { access_token := some "a0", refresh_token := some "r0",
        location := "/dashboard" }
      { url := "projects/", authorization := none,
        retry := false }).refreshSends.length = 1 ∧
    (apiSend (fun _ => Except.ok "a1") (fun q => if q.retry then 200 else 401)
      { access_token := some "a0", refresh_token := some "r0",
        location := "/dashboard" }
      { url := "projects/", authorization := none,
        retry := false }).state.access_token = some "a1" ∧
    (apiSend (fun _ => Except.ok "a1") (fun q => if q.retry then 200 else 401)
      { access_token := some "a0", refresh_token := some "r0",
        location := "/dashboard" }
      { url := "projects/", authorization := none,
        retry := false }).state.refresh_token = some "r0" := by
  rw [apiSend_401_refresh_ok (fun _ => Except.ok "a1")
    (fun q => if q.retry then 200 else 401)
    { access_token := some "a0", refresh_token := some "r0",
      location := "/dashboard" }
    { url := "projects/", authorization := none, retry := false }
    "r0" "a1" rfl rfl rfl rfl rfl]
  simp only
  rw [apiSend_of_retry _ _ _ _ rfl]
  decide

/-- C4 amended: at most one TokenPair is live (storage is one pair of token
slots), and a successful login stores both tokens of the new pair together in
a single transition; a successful refresh, by contrast, replaces only the
stored access token and leaves the stored refresh token unchanged. -/
theorem c4_login_both_refresh_access_only
    (refreshSrv : String → Except Nat String) (serve : Request → Nat)
    (st : ClientState) (req : Request) (rt a : String)
    (p : LoginPayload) (stA : AuthState)
    (hr : req.retry = false)
    (hs : serve (attachToken st req) = 401)
    (hrt : st.refresh_token = some rt)
    (hne : rt.isEmpty = false)
    (hok : refreshSrv rt = .ok a) :
    ((login (.ok p) stA).1.storage.access_token = some p.access ∧
     (login (.ok p) stA).1.storage.refresh_token = some p.refresh) ∧
    ((apiSend refreshSrv serve st req).state.access_token = some a ∧
     (apiSend refreshSrv serve st req).state.refresh_token =
       st.refresh_token) := by
  refine ⟨⟨by simp [login], by simp [login]⟩, ?_⟩
  rw [apiSend_401_refresh_ok refreshSrv serve st req rt a hs hr hrt hne hok]
  simp only
  rw [apiSend_of_retry refreshSrv serve _ _ rfl]
  split <;> exact ⟨rfl, rfl⟩

/-- C4 amended witness: concrete login and refresh runs exhibiting the two
behaviours. -/
theorem c4_login_both_refresh_access_only_witness :
    (apiSend (fun _ => Except.ok "a1") (fun _ => 401)
      { access_token := some "a0", refresh_token := some "r0",
        location := "/dashboard" }
      { url := "projects/", authorization := none,
        retry := false }).state.refresh_token = some "r0" := by
  have h := c4_login_both_refresh_access_only (fun _ => Except.ok "a1")
    (fun _ => 401)
    { access_token := some "a0", refresh_token := some "r0",
      location := "/dashboard" }
    { url := "projects/", authorization := none, retry := false }
    "r0" "a1" aminaPayload anonState
    rfl rfl rfl rfl rfl
  exact h.2.2

/-- C5 counterexample: the code has no mechanism that discards a late profile
response. Starting from an authenticated state, logout completes (SessionUser
null, tokens cleared); when the in-flight profile response is then delivered,
the refreshUser continuation applies setUser unconditionally and SessionUser
is no longer null — the late response is applied, not discarded. -/
theorem c5_late_response_applied_counterexample :
    (logout aminaSession).1.user = none ∧
    (refreshUser (.ok amina) (logout aminaSession).1).1.user ≠ none := by
  decide

/-- C5 amended: logout nulls SessionUser synchronously, but no discard guard
exists: a profile response delivered after logout, while the document is
still loaded, is applied by setUser and rehydrates SessionUser; SessionUser
remains null only when the logout navigation unloads the document before the
delivery — the fresh document then bootstraps from the cleared storage to an
anonymous state. -/
theorem c5_discard_only_by_unload (st : AuthState) (u : User)
    (profileReply : Except ApiError User) :
    (logout st).1.user = none ∧
    (refreshUser (.ok u) (logout st).1).1.user = some u ∧
    (initAuth profileReply (freshAuthState (logout st).1.storage)).1.user
      = none := by
  refine ⟨rfl, rfl, ?_⟩
  simp [initAuth, freshAuthState, logout]

/-- C6: for every login call the Identity Service rejects, no token is
written (both storage slots and the location are unchanged, so an absent
TokenPair stays absent), the in-memory user is unchanged (anonymous stays
anonymous), and the caller receives the structured failure result carrying
the extracted message — the function returns it instead of throwing. -/
theorem c6_login_failure_no_writes (e : Option ErrData) (st : AuthState) :
    (login (.error e) st).1.storage.access_token = st.storage.access_token ∧
    (login (.error e) st).1.storage.refresh_token = st.storage.refresh_token ∧
    (login (.error e) st).1.storage.location = st.storage.location ∧
    (login (.error e) st).1.user = st.user ∧
    (login (.error e) st).2 = .failure (loginErrorMessage e) := by
  simp [login]

/-- C7: every register submission whose password is shorter than 8 characters
or differs from the typed confirmation short-circuits locally: handleSubmit
resolves to a local validation error before register() is reached, so no
network call is issued and no token write can occur. -/
theorem c7_register_short_circuit (f : RegisterForm)
    (h : f.password.length < 8 ∨ f.password ≠ f.confirmPassword) :
    ∃ msg, handleSubmit f = .localError msg ∧
      (handleSubmit f).networkCalls = 0 ∧
      (handleSubmit f).tokenWrites = 0 := by
  unfold handleSubmit
  by_cases hm : f.password = f.confirmPassword
  · have hlen : f.password.length < 8 := by
      rcases h with h | h
      · exact h
      · exact absurd hm h
    rw [hm] at hlen
    exact ⟨"Password must be at least 8 characters long",
      by simp [hm, hlen, SubmitStep.networkCalls, SubmitStep.tokenWrites]⟩
  · exact ⟨"Passwords do not match",
      by simp [hm, SubmitStep.networkCalls, SubmitStep.tokenWrites]⟩

/-- C7 witness: secret "short" (equal to its confirmation but shorter than 8)
short-circuits with a local validation error, zero network calls and zero
token writes. -/
theorem c7_register_short_circuit_witness :
    ∃ msg, handleSubmit
      { email := "amina@example.com", password := "short",
        confirmPassword := "short", first_name := "Amina",
        last_name := "Diallo", phone_number := "+15550001111" } =
        .localError msg ∧
      (handleSubmit
        { email := "amina@example.com", password := "short",
          confirmPassword := "short", first_name := "Amina",
          last_name := "Diallo", phone_number := "+15550001111" }).networkCalls
        = 0 ∧
      (handleSubmit
        { email := "amina@example.com", password := "short",
          confirmPassword := "short", first_name := "Amina",
          last_name := "Diallo", phone_number := "+15550001111" }).tokenWrites
        = 0 :=
  c7_register_short_circuit _ (Or.inl (by decide))

/-- C8: logout erases both tokens and nulls SessionUser synchronously; in its
effect order every state-clearing effect precedes the best-effort logout
POST; and the continuation attached to that POST swallows any failure, so no
error is surfaced to the caller and the cleared state is never reversed. -/
theorem c8_logout_clears_then_notifies (st : AuthState)
    (reply : Except Nat Unit) :
    (logout st).1.storage.access_token = none ∧
    (logout st).1.storage.refresh_token = none ∧
    (logout st).1.user = none ∧
    (logout st).2 = [.removeItem "access_token", .removeItem "refresh_token",
      .setUserNull, .postLogout, .setLocation "/"] ∧
    logoutNotifyHandler reply = .ok () :=
  ⟨rfl, rfl, rfl, rfl, rfl⟩

/-- C9: on process start with a stored (truthy) access token, bootstrap calls
the profile endpoint — initAuth takes no credentials, only the stored token
gates the call; on success SessionUser is reconstructed from the profile
payload; on any failure all session state is cleared — both tokens removed
and user null, as for a failed refresh — and the state is anonymous. -/
theorem c9_bootstrap_restores_or_clears
    (profileReply : Except ApiError User) (st : AuthState) (t : String)
    (ht : st.storage.access_token = some t) (hne : t.isEmpty = false) :
    (initAuth profileReply st).2 = true ∧
    (∀ u, profileReply = .ok u → (initAuth profileReply st).1.user = some u) ∧
    (∀ e, profileReply = .error e →
      (initAuth profileReply st).1.user = none ∧
      (initAuth profileReply st).1.storage.access_token = none ∧
      (initAuth profileReply st).1.storage.refresh_token = none) := by
  cases profileReply with
  | ok u =>
    refine ⟨?_, ?_, ?_⟩ <;>
      simp [initAuth, ht, hne, refreshUser, logout]
  | error e =>
    refine ⟨?_, ?_, ?_⟩ <;>
      simp [initAuth, ht, hne, refreshUser, logout]

/-- C9 witness: on a fresh process with tokens a0/r0 stored, bootstrap with a
successful profile reply restores SessionUser to amina without credentials. -/
theorem c9_bootstrap_witness :
    (initAuth (.ok amina) aminaSession).1.user = some amina := by
  have h := c9_bootstrap_restores_or_clears (.ok amina) aminaSession "a0"
    rfl rfl
  exact h.2.1 amina rfl

/-- C10: the refresh POST triggered by the 401 handler goes through the bare
axios client, bypassing both interceptors: in every run of the pipeline every
refresh POST issued carries no Authorization header (so never the stale
access token) and at most one refresh POST is issued per original request;
and when the refresh POST itself receives a 401, no nested refresh-retry
cycle runs — the pipeline falls directly into the terminal failure branch:
tokens cleared, /login redirect, the refresh error rejected to the caller,
and a single resource send with a single refresh send. -/
theorem c10_refresh_bypasses_interceptors
    (refreshSrv : String → Except Nat String) (serve : Request → Nat)
    (st : ClientState) (req : Request) (rt : String)
    (hr : req.retry = false)
    (hs : serve (attachToken st req) = 401)
    (hrt : st.refresh_token = some rt)
    (hne : rt.isEmpty = false)
    (hfail : refreshSrv rt = .error 401) :
    (∀ rs : String → Except Nat String, ∀ sv : Request → Nat,
      ∀ stA : ClientState, ∀ rq : Request,
      (∀ q ∈ (apiSend rs sv stA rq).refreshSends, q.authorization = none) ∧
      (apiSend rs sv stA rq).refreshSends.length ≤ 1) ∧
    apiSend refreshSrv serve st req =
      { state := clearedToLogin, outcome := .rejected (.refreshHttp 401),
        resourceSends := [attachToken st req],
        refreshSends := [refreshHttpRequest rt] } := by
  constructor
  · intro rs sv stA rq
    rcases apiSend_refreshSends_spec rs sv stA rq with h | ⟨rt2, hrt2, h⟩
    · rw [h]
      exact ⟨by simp, by simp⟩
    · rw [h]
      refine ⟨?_, by simp⟩
      intro q hq
      simp only [List.mem_singleton] at hq
      rw [hq]
      rfl
  · exact apiSend_401_refresh_fail refreshSrv serve st req rt 401 hs hr hrt
      hne hfail

/-- C10 witness: a concrete run whose refresh POST receives 401 issues
exactly the one bare, header-free refresh request. -/
theorem c10_refresh_bypass_witness :
    (apiSend (fun _ => Except.error 401) (fun _ => 401)
      { access_token := some "a0", refresh_token := some "r0",
        location := "/dashboard" }
      { url := "inspectors/", authorization := none,
        retry := false }).refreshSends = [refreshHttpRequest "r0"] := by
  have h := c10_refresh_bypasses_interceptors (fun _ => Except.error 401)
    (fun _ => 401)
    { access_token := some "a0", refresh_token := some "r0",
      location := "/dashboard" }
    { url := "inspectors/", authorization := none, retry := false }
    "r0" rfl rfl rfl rfl rfl
  rw [h.2]
